import Mathlib

/-!
Verification of the ticket-alarm deduplication / notification core.

This file shallowly embeds the Python code of the repository
(data_manager.py, filters.py, discord_notifier.py, web_app.py, run.py)
as executable Lean definitions and proves the spec's testable properties
about them.  File IO is modelled by passing the parsed file contents (or a
file state) explicitly; `datetime.now()` is an explicit parameter.
-/

namespace TicketAlarm

/-- ASCII fragment of Python's whitespace class (used by `str.strip()` and
by the regex class `\s`). -/
def pyIsSpace (c : Char) : Bool :=
  c = ' ' || c = '\t' || c = '\n' || c = '\r' || c = '\x0b' || c = '\x0c'

/-- Python `str.strip()`: drop leading and trailing whitespace. -/
def pyStrip (s : String) : String :=
  ⟨((s.toList.dropWhile pyIsSpace).reverse.dropWhile pyIsSpace).reverse⟩

/-- A notice record.  The Python code reads dict fields with
`ticket.get(key, '')`, so every field is modelled as a present string
(an absent key is the empty string). -/
structure Ticket where
  title : String
  open_date : String
  link : String
  source : String
deriving DecidableEq, Repr

/-- data_manager.get_ticket_id: strips title / open_date / source, returns
`None` (`none`) when the stripped title or source is empty, and otherwise
the concatenation `source_title_open_date`. -/
def get_ticket_id (t : Ticket) : Option String :=
  let title := pyStrip t.title
  let open_date := pyStrip t.open_date
  let source := pyStrip t.source
  if title = "" || source = "" then none
  else some (source ++ "_" ++ title ++ "_" ++ open_date)

/-- data_manager.mark_as_notified over the persisted id list `sent` (the
parsed contents of sent_notifications.json): append each id that is not
already present, in order. -/
def mark_as_notified (ticket_ids : List String) (sent : List String) : List String :=
  ticket_ids.foldl (fun acc i => if acc.contains i then acc else acc ++ [i]) sent

/-- data_manager.get_new_tickets_for_notification: keep the tickets whose
id is truthy (not `None`, not empty) and not among the already-sent ids. -/
def get_new_tickets_for_notification (tickets : List Ticket) (sent : List String) :
    List Ticket :=
  tickets.filter fun t =>
    match get_ticket_id t with
    | none => false
    | some i => i != "" && !(sent.contains i)

theorem mark_as_notified_cons (i : String) (is sent : List String) :
    mark_as_notified (i :: is) sent =
      mark_as_notified is (if sent.contains i then sent else sent ++ [i]) := rfl

theorem mem_mark_of_mem_sent {x : String} (ids : List String) {sent : List String}
    (h : x ∈ sent) : x ∈ mark_as_notified ids sent := by
  induction ids generalizing sent with
  | nil => exact h
  | cons i is ih =>
    rw [mark_as_notified_cons]
    by_cases hc : sent.contains i = true
    · rw [if_pos hc]
      exact ih h
    · rw [if_neg hc]
      exact ih (List.mem_append_left _ h)

theorem mem_mark_of_mem_ids {x : String} {ids : List String} (sent : List String)
    (h : x ∈ ids) : x ∈ mark_as_notified ids sent := by
  induction ids generalizing sent with
  | nil => cases h
  | cons i is ih =>
    rw [mark_as_notified_cons]
    rcases List.mem_cons.mp h with rfl | hmem
    · by_cases hc : sent.contains x = true
      · rw [if_pos hc]
        exact mem_mark_of_mem_sent _ (by simpa using hc)
      · rw [if_neg hc]
        exact mem_mark_of_mem_sent _ (by simp)
    · exact ih _ hmem

theorem mem_of_mem_mark {x : String} {ids sent : List String}
    (h : x ∈ mark_as_notified ids sent) : x ∈ sent ∨ x ∈ ids := by
  induction ids generalizing sent with
  | nil => exact Or.inl h
  | cons i is ih =>
    rw [mark_as_notified_cons] at h
    rcases ih h with hs | hi
    · by_cases hc : sent.contains i = true
      · rw [if_pos hc] at hs
        exact Or.inl hs
      · rw [if_neg hc] at hs
        rcases List.mem_append.mp hs with hs | hs
        · exact Or.inl hs
        · rcases List.mem_singleton.mp hs with rfl
          exact Or.inr (List.mem_cons_self ..)
    · exact Or.inr (List.mem_cons_of_mem _ hi)

theorem get_ticket_id_eq_none (t : Ticket)
    (h : pyStrip t.title = "" ∨ pyStrip t.source = "") : get_ticket_id t = none := by
  unfold get_ticket_id
  rcases h with h | h <;> simp [h]

theorem ne_empty_of_get_ticket_id_some {t : Ticket} {i : String}
    (h : get_ticket_id t = some i) :
    pyStrip t.title ≠ "" ∧ pyStrip t.source ≠ "" := by
  unfold get_ticket_id at h
  by_cases h1 : pyStrip t.title = ""
  · simp [h1] at h
  · by_cases h2 : pyStrip t.source = ""
    · simp [h2] at h
    · exact ⟨h1, h2⟩

/-- C1: Ledger idempotence.  Take any batch and any persisted ledger.
Run `get_new_tickets_for_notification`, mark the ids of everything it
returned with `mark_as_notified`, then run the filter again on the same
batch: the second pass is empty. -/
theorem ledger_idempotence (tickets : List Ticket) (sent : List String) :
    get_new_tickets_for_notification tickets
      (mark_as_notified
        ((get_new_tickets_for_notification tickets sent).filterMap get_ticket_id) sent)
      = [] := by
  rw [get_new_tickets_for_notification, List.filter_eq_nil_iff]
  intro t ht
  cases hid : get_ticket_id t with
  | none => simp
  | some i =>
    simp only [Bool.and_eq_true, bne_iff_ne, ne_eq, Bool.not_eq_true]
    intro hcon
    rcases hcon with ⟨hne, hnc⟩
    have hmem : i ∈ mark_as_notified
        ((get_new_tickets_for_notification tickets sent).filterMap get_ticket_id) sent := by
      by_cases hc : sent.contains i = true
      · exact mem_mark_of_mem_sent _ (by simpa using hc)
      · refine mem_mark_of_mem_ids _ (List.mem_filterMap.mpr ⟨t, ?_, hid⟩)
        refine List.mem_filter.mpr ⟨ht, ?_⟩
        simp only [hid, Bool.and_eq_true, bne_iff_ne, ne_eq, Bool.not_eq_true]
        exact ⟨hne, by simpa using hc⟩
    simp [List.contains, hmem] at hnc

/-- C8: Dropped-record invariant.  A record whose stripped title or source
is empty has no identity, never appears in the filter's output, and the
ids persisted after marking the output all come from records with
non-empty stripped title and source. -/
theorem dropped_record_invariant (t : Ticket) (tickets : List Ticket) (sent : List String)
    (h : pyStrip t.title = "" ∨ pyStrip t.source = "") :
    get_ticket_id t = none ∧
    t ∉ get_new_tickets_for_notification tickets sent ∧
    ∀ i ∈ mark_as_notified
        ((get_new_tickets_for_notification tickets sent).filterMap get_ticket_id) sent,
      i ∈ sent ∨ ∃ u ∈ tickets, get_ticket_id u = some i ∧
        pyStrip u.title ≠ "" ∧ pyStrip u.source ≠ "" := by
  refine ⟨get_ticket_id_eq_none t h, ?_, ?_⟩
  · intro hmem
    have := (List.mem_filter.mp hmem).2
    rw [get_ticket_id_eq_none t h] at this
    simp at this
  · intro i hi
    rcases mem_of_mem_mark hi with hs | hids
    · exact Or.inl hs
    · rcases List.mem_filterMap.mp hids with ⟨u, hu, hid⟩
      have hu' := List.mem_filter.mp hu
      rcases ne_empty_of_get_ticket_id_some hid with ⟨h1, h2⟩
      exact Or.inr ⟨u, hu'.1, hid, h1, h2⟩

/-- Witness for C8 (the spec's literal scenario 3): a record with empty
title is dropped by the filter and assigned no identity. -/
theorem dropped_record_invariant_witness :
    get_ticket_id ⟨"", "x", "", "yes24"⟩ = none ∧
    (⟨"", "x", "", "yes24"⟩ : Ticket) ∉
      get_new_tickets_for_notification [⟨"", "x", "", "yes24"⟩] [] :=
  ⟨(dropped_record_invariant ⟨"", "x", "", "yes24"⟩ [⟨"", "x", "", "yes24"⟩] []
      (by decide)).1,
   (dropped_record_invariant ⟨"", "x", "", "yes24"⟩ [⟨"", "x", "", "yes24"⟩] []
      (by decide)).2.1⟩

/-- C2 counterexample: the identity is NOT invariant under case changes —
`get_ticket_id` strips whitespace but applies no case normalization, so a
title differing only in case yields a different identity. -/
theorem identity_case_counterexample :
    get_ticket_id ⟨"IU Concert", "2025.03.01", "", "interpark"⟩ ≠
    get_ticket_id ⟨"iu concert", "2025.03.01", "", "interpark"⟩ := by decide

/-- C2 amended: identity computation is pure and deterministic, and is
invariant under leading/trailing whitespace changes: any two records whose
title, open_date and source agree after stripping get the same identity. -/
theorem identity_trim_invariant (t u : Ticket)
    (h1 : pyStrip t.title = pyStrip u.title)
    (h2 : pyStrip t.open_date = pyStrip u.open_date)
    (h3 : pyStrip t.source = pyStrip u.source) :
    get_ticket_id t = get_ticket_id u := by
  unfold get_ticket_id
  rw [h1, h2, h3]

/-- Witness for the amended C2: whitespace padding around title, source
and open_date (and any change of `link`) does not change the identity. -/
theorem identity_trim_invariant_witness :
    get_ticket_id ⟨"  IU Concert ", " 2025.03.01", "a", "interpark  "⟩ =
    get_ticket_id ⟨"IU Concert", "2025.03.01", "b", "interpark"⟩ :=
  identity_trim_invariant
    ⟨"  IU Concert ", " 2025.03.01", "a", "interpark  "⟩
    ⟨"IU Concert", "2025.03.01", "b", "interpark"⟩
    (by decide) (by decide) (by decide)

/-! ## Persisted-store model (data_manager.load_tickets and
DiscordNotifier._load_sent_notifications)

A file read in Python can end in four ways, which the exception structure
of the two loaders distinguishes: the file is absent (`open` raises
FileNotFoundError), the file exists but cannot be read (`open`/`read`
raises another OSError such as PermissionError), the contents are not
valid JSON (`json.load` raises JSONDecodeError), or the load succeeds. -/

inductive FileState where
  /-- File does not exist: `open` raises FileNotFoundError. -/
  | absent
  /-- File exists but reading raises a non-FileNotFoundError OSError
  (e.g. PermissionError).  `os.path.exists` still returns True. -/
  | unreadable
  /-- File is readable but `json.load` raises JSONDecodeError. -/
  | malformed
  /-- File is readable and parses to the list of persisted ids. -/
  | valid (ids : List String)
deriving DecidableEq, Repr

/-- data_manager.load_tickets: `except FileNotFoundError: return []` and
`except json.JSONDecodeError: return []`.  Any other read error is NOT
caught and propagates to the caller (`Except.error`). -/
def load_tickets : FileState → Except String (List String)
  | .absent => .ok []
  | .unreadable => .error "OSError"
  | .malformed => .ok []
  | .valid ids => .ok ids

/-- data_manager.load_sent_notifications: load_tickets on the
sent-notifications file. -/
def load_sent_notifications (fs : FileState) : Except String (List String) :=
  load_tickets fs

/-- DiscordNotifier._load_sent_notifications: `if os.path.exists(...)`
guards the read, and the whole body is under `except Exception: return {}`.
The successfully parsed dict is passed through _cleanup_old_notifications
(the 30-day pruning), taken here as a parameter `cleanup` because it runs
only on successfully loaded data and cannot raise. -/
def discord_load_sent_notifications (cleanup : List (String × String) → List (String × String)) :
    FileState → List (String × String)
  | .absent => []
  | .unreadable => []
  | .malformed => []
  | .valid ids => cleanup (ids.map fun i => (i, ""))

/-- C9 counterexample: on an unreadable (but existing) store, the
data_manager loader raises instead of returning the empty ledger. -/
theorem load_tolerance_counterexample :
    load_sent_notifications FileState.unreadable ≠ Except.ok [] := by
  simp [load_sent_notifications, load_tickets]

/-- C9 amended: a missing or malformed store loads as the empty ledger in
both loaders; the DiscordNotifier loader additionally tolerates an
unreadable store (it catches every exception), while data_manager's loader
propagates read errors other than file-not-found. -/
theorem load_tolerance_amended :
    load_sent_notifications FileState.absent = Except.ok [] ∧
    load_sent_notifications FileState.malformed = Except.ok [] ∧
    ∀ cleanup,
      discord_load_sent_notifications cleanup FileState.absent = [] ∧
      discord_load_sent_notifications cleanup FileState.unreadable = [] ∧
      discord_load_sent_notifications cleanup FileState.malformed = [] := by
  exact ⟨rfl, rfl, fun _ => ⟨rfl, rfl, rfl⟩⟩

/-! ## Datetime model

Python `datetime` values are modelled by their components; comparison is
modelled by the order-embedding `key` (datetime comparison in Python is
lexicographic on the components, and `key` is lexicographic for in-range
components). -/

structure PyDateTime where
  year : Nat
  month : Nat
  day : Nat
  hour : Nat
  minute : Nat
  second : Nat
  usec : Nat
deriving DecidableEq, Repr

/-- Order-embedding of a datetime into Nat (lexicographic for in-range
components). -/
def PyDateTime.key (d : PyDateTime) : Nat :=
  (((((d.year * 13 + d.month) * 32 + d.day) * 24 + d.hour) * 60 + d.minute) * 60
     + d.second) * 1000000 + d.usec

/-- `datetime.max` = 9999-12-31 23:59:59.999999, the sentinel that
parse_date returns on failure. -/
def dtMax : PyDateTime := ⟨9999, 12, 31, 23, 59, 59, 999999⟩

/-- `datetime.date`: the (year, month, day) part, as returned by
Python's `.date()`. -/
structure PyDate where
  year : Nat
  month : Nat
  day : Nat
deriving DecidableEq, Repr

def PyDateTime.date (d : PyDateTime) : PyDate := ⟨d.year, d.month, d.day⟩

def isLeapYear (y : Nat) : Bool :=
  y % 4 = 0 && (y % 100 ≠ 0 || y % 400 = 0)

def daysInMonth (y m : Nat) : Nat :=
  if m = 2 then (if isLeapYear y then 29 else 28)
  else if m = 4 ∨ m = 6 ∨ m = 9 ∨ m = 11 then 30
  else 31

/-- The `datetime(year, month, day, hour, minute)` constructor: `some` when
the components form a valid datetime, `none` when Python raises ValueError. -/
def mkDatetime (y m d hh mi : Nat) : Option PyDateTime :=
  if 1 ≤ y ∧ y ≤ 9999 ∧ 1 ≤ m ∧ m ≤ 12 ∧ 1 ≤ d ∧ d ≤ daysInMonth y m ∧
      hh ≤ 23 ∧ mi ≤ 59 then
    some ⟨y, m, d, hh, mi, 0, 0⟩
  else none

/-! ## Regex matchers for the date patterns of filters.parse_date,
run.parse_date and web_app._parse_ticket_date_improved

Each pattern is embedded as an anchored matcher over `List Char`;
`re.search` is the leftmost position where the anchored matcher succeeds.
Greedy `\d{1,2}` quantifiers backtrack through their continuation (CPS),
exactly as the regex engine does.  `\s+`/`\s*` are always followed here by
a digit or `(`-literal, which is disjoint from whitespace, so maximal
munch is exact.  `\d` is modelled as ASCII digits. -/

def digitVal (c : Char) : Nat := c.toNat - '0'.toNat

/-- Regex `\d{2}`. -/
def matchD2 : List Char → Option (Nat × List Char)
  | a :: b :: rest =>
    if a.isDigit && b.isDigit then some (digitVal a * 10 + digitVal b, rest) else none
  | _ => none

/-- Regex `\d{4}`. -/
def matchD4 : List Char → Option (Nat × List Char)
  | a :: b :: c :: d :: rest =>
    if a.isDigit && b.isDigit && c.isDigit && d.isDigit then
      some (((digitVal a * 10 + digitVal b) * 10 + digitVal c) * 10 + digitVal d, rest)
    else none
  | _ => none

/-- Greedy `(\d{1,2})` with regex backtracking, in CPS: try the two-digit
reading first, fall back to one digit when the continuation fails. -/
def matchD12 (k : Nat → List Char → Option α) : List Char → Option α
  | a :: b :: rest =>
    if a.isDigit then
      if b.isDigit then
        match k (digitVal a * 10 + digitVal b) rest with
        | some r => some r
        | none => k (digitVal a) (b :: rest)
      else k (digitVal a) (b :: rest)
    else none
  | [a] => if a.isDigit then k (digitVal a) [] else none
  | [] => none

/-- The separator class `[sep]` of dot, dash, slash. -/
def isDateSep (c : Char) : Bool := c = '.' || c = '-' || c = '/'

def matchSep : List Char → Option (List Char)
  | c :: rest => if isDateSep c then some rest else none
  | _ => none

def matchChar (x : Char) : List Char → Option (List Char)
  | c :: rest => if c = x then some rest else none
  | _ => none

/-- Regex `[\s]+` (maximal munch; always followed by a digit here). -/
def matchWs1 : List Char → Option (List Char)
  | c :: rest => if pyIsSpace c then some (rest.dropWhile pyIsSpace) else none
  | _ => none

/-- Regex `\s*` (maximal munch; always followed by a non-space here). -/
def matchWs0 (s : List Char) : List Char := s.dropWhile pyIsSpace

/-- Pattern `(\d{4})[sep](\d{1,2})[sep](\d{1,2})[\s]+(\d{1,2}):(\d{1,2})`
where `[sep]` is the separator class dot, dash, slash; anchored. -/
def pYmdHMAt (s : List Char) : Option (Nat × Nat × Nat × Nat × Nat) :=
  match matchD4 s with
  | none => none
  | some (y, s) =>
    match matchSep s with
    | none => none
    | some s =>
      matchD12 (fun m s =>
        match matchSep s with
        | none => none
        | some s =>
          matchD12 (fun d s =>
            match matchWs1 s with
            | none => none
            | some s =>
              matchD12 (fun hh s =>
                match matchChar ':' s with
                | none => none
                | some s =>
                  matchD12 (fun mi _ => some (y, m, d, hh, mi)) s) s) s) s

/-- Pattern `(\d{4})[sep](\d{1,2})[sep](\d{1,2})`, anchored. -/
def pYmdAt (s : List Char) : Option (Nat × Nat × Nat) :=
  match matchD4 s with
  | none => none
  | some (y, s) =>
    match matchSep s with
    | none => none
    | some s =>
      matchD12 (fun m s =>
        match matchSep s with
        | none => none
        | some s =>
          matchD12 (fun d _ => some (y, m, d)) s) s

/-- Pattern `(\d{1,2})[sep](\d{1,2})[\s]+(\d{1,2}):(\d{1,2})`, anchored. -/
def pMdHMAt (s : List Char) : Option (Nat × Nat × Nat × Nat) :=
  matchD12 (fun m s =>
    match matchSep s with
    | none => none
    | some s =>
      matchD12 (fun d s =>
        match matchWs1 s with
        | none => none
        | some s =>
          matchD12 (fun hh s =>
            match matchChar ':' s with
            | none => none
            | some s =>
              matchD12 (fun mi _ => some (m, d, hh, mi)) s) s) s) s

/-- `(\d{1,2})월\s*(\d{1,2})일\s*(\d{1,2})시\s*(\d{1,2})분`, anchored. -/
def pKoreanAt (s : List Char) : Option (Nat × Nat × Nat × Nat) :=
  matchD12 (fun m s =>
    match matchChar '월' s with
    | none => none
    | some s =>
      matchD12 (fun d s =>
        match matchChar '일' s with
        | none => none
        | some s =>
          matchD12 (fun hh s =>
            match matchChar '시' s with
            | none => none
            | some s =>
              matchD12 (fun mi s =>
                match matchChar '분' s with
                | none => none
                | some _ => some (m, d, hh, mi)) (matchWs0 s)) (matchWs0 s)) (matchWs0 s)) s

def isHangulSyllable (c : Char) : Bool := '가' ≤ c && c ≤ '힣'

/-- Greedy optional `(?:\([가-힣]\))?` in CPS. -/
def matchOptWeekday (k : List Char → Option α) (s : List Char) : Option α :=
  match s with
  | a :: c :: b :: rest =>
    if a = '(' && isHangulSyllable c && b = ')' then
      match k rest with
      | some r => some r
      | none => k s
    else k s
  | _ => k s

/-- `(\d{1,2})/(\d{1,2})(?:\([가-힣]\))?\s*(\d{1,2}):(\d{1,2})`, anchored. -/
def pSlashAt (s : List Char) : Option (Nat × Nat × Nat × Nat) :=
  matchD12 (fun m s =>
    match matchChar '/' s with
    | none => none
    | some s =>
      matchD12 (fun d s =>
        matchOptWeekday (fun s =>
          matchD12 (fun hh s =>
            match matchChar ':' s with
            | none => none
            | some s =>
              matchD12 (fun mi _ => some (m, d, hh, mi)) s) (matchWs0 s)) s) s) s

/-- `re.search`: try the anchored matcher at every position, leftmost
match wins. -/
def searchP (pAt : List Char → Option α) : List Char → Option α
  | [] => pAt []
  | c :: rest =>
    match pAt (c :: rest) with
    | some r => some r
    | none => searchP pAt rest

/-- filters.parse_date.  `now` is `datetime.now()`.  When a pattern
matches but the datetime constructor raises (e.g. month 13), the
exception is caught by the function's outer `except` and the sentinel
`datetime.max` is returned without trying later patterns — hence
`(mkDatetime ...).getD dtMax` at the first matching pattern. -/
def parse_date (now : PyDateTime) (date_str : String) : PyDateTime :=
  match searchP pYmdHMAt date_str.toList with
  | some (y, m, d, hh, mi) => (mkDatetime y m d hh mi).getD dtMax
  | none =>
    match searchP pYmdAt date_str.toList with
    | some (y, m, d) => (mkDatetime y m d 0 0).getD dtMax
    | none =>
      match searchP pMdHMAt date_str.toList with
      | some (m, d, hh, mi) => (mkDatetime now.year m d hh mi).getD dtMax
      | none =>
        match searchP pKoreanAt date_str.toList with
        | some (m, d, hh, mi) => (mkDatetime now.year m d hh mi).getD dtMax
        | none =>
          match searchP pSlashAt date_str.toList with
          | some (m, d, hh, mi) => (mkDatetime now.year m d hh mi).getD dtMax
          | none => dtMax

/-- run.parse_date: same cascade as filters.parse_date but without the
`MM/DD(요일) HH:MM` pattern. -/
def run_parse_date (now : PyDateTime) (date_str : String) : PyDateTime :=
  match searchP pYmdHMAt date_str.toList with
  | some (y, m, d, hh, mi) => (mkDatetime y m d hh mi).getD dtMax
  | none =>
    match searchP pYmdAt date_str.toList with
    | some (y, m, d) => (mkDatetime y m d 0 0).getD dtMax
    | none =>
      match searchP pMdHMAt date_str.toList with
      | some (m, d, hh, mi) => (mkDatetime now.year m d hh mi).getD dtMax
      | none =>
        match searchP pKoreanAt date_str.toList with
        | some (m, d, hh, mi) => (mkDatetime now.year m d hh mi).getD dtMax
        | none => dtMax

/-- filters.sort_by_date: Python's `sorted` with `parse_date` of the
open_date as the key.  `sorted` is a stable sort; a stable sort over a
total preorder is a unique function, so it is embedded here as a stable
insertion sort. -/
def sort_by_date (now : PyDateTime) (tickets : List Ticket) : List Ticket :=
  tickets.insertionSort fun a b =>
    (parse_date now a.open_date).key ≤ (parse_date now b.open_date).key

/-! ## web_app._parse_ticket_date_improved

Four formats tried in order; each format's ValueError falls through to
the next (per-format try/except), and total failure returns `None`. -/

def pyStripList (l : List Char) : List Char :=
  ((l.dropWhile pyIsSpace).reverse.dropWhile pyIsSpace).reverse

/-- The separator class of format 1/4: dash or dot. -/
def wSep : List Char → Option (List Char)
  | c :: rest => if c = '-' || c = '.' then some rest else none
  | _ => none

/-- `\(.\)`: a parenthesised single character (`.` excludes newline). -/
def matchParenAny : List Char → Option (List Char)
  | a :: c :: b :: rest =>
    if a = '(' && c ≠ '\n' && b = ')' then some rest else none
  | _ => none

/-- Format 1 `(\d{4})[-.](\d{2})[-.](\d{2})\(.\)\s*(\d{2}):(\d{2})`,
anchored. -/
def wFmt1At (s : List Char) : Option (Nat × Nat × Nat × Nat × Nat) :=
  match matchD4 s with
  | none => none
  | some (y, s) =>
  match wSep s with
  | none => none
  | some s =>
  match matchD2 s with
  | none => none
  | some (m, s) =>
  match wSep s with
  | none => none
  | some s =>
  match matchD2 s with
  | none => none
  | some (d, s) =>
  match matchParenAny s with
  | none => none
  | some s =>
  match matchD2 (matchWs0 s) with
  | none => none
  | some (hh, s) =>
  match matchChar ':' s with
  | none => none
  | some s =>
  match matchD2 s with
  | none => none
  | some (mi, _) => some (y, m, d, hh, mi)

/-- Format 2 `(\d{2})\.(\d{2})\(.\)\s*(\d{2}):(\d{2})`, anchored. -/
def wFmt2At (s : List Char) : Option (Nat × Nat × Nat × Nat) :=
  match matchD2 s with
  | none => none
  | some (m, s) =>
  match matchChar '.' s with
  | none => none
  | some s =>
  match matchD2 s with
  | none => none
  | some (d, s) =>
  match matchParenAny s with
  | none => none
  | some s =>
  match matchD2 (matchWs0 s) with
  | none => none
  | some (hh, s) =>
  match matchChar ':' s with
  | none => none
  | some s =>
  match matchD2 s with
  | none => none
  | some (mi, _) => some (m, d, hh, mi)

/-- Format 3 `\[오픈\]\s*(\d{2})\.(\d{2})\.(\d{2})`, anchored. -/
def wFmt3At (s : List Char) : Option (Nat × Nat × Nat) :=
  match matchChar '[' s with
  | none => none
  | some s =>
  match matchChar '오' s with
  | none => none
  | some s =>
  match matchChar '픈' s with
  | none => none
  | some s =>
  match matchChar ']' s with
  | none => none
  | some s =>
  match matchD2 (matchWs0 s) with
  | none => none
  | some (yy, s) =>
  match matchChar '.' s with
  | none => none
  | some s =>
  match matchD2 s with
  | none => none
  | some (m, s) =>
  match matchChar '.' s with
  | none => none
  | some s =>
  match matchD2 s with
  | none => none
  | some (d, _) => some (yy, m, d)

/-- Index of the last `)` in `line`, if any. -/
def lastParenClose (line : List Char) : Option Nat :=
  match line.reverse.findIdx? (fun c => c = ')') with
  | none => none
  | some r => some (line.length - 1 - r)

/-- Length of a match of `\s*\(.+\)` anchored at the start of `s`
(greedy `.+` runs to the last `)` on the same line), or `none`. -/
def tryParenLen (s : List Char) : Option Nat :=
  let w := (s.takeWhile pyIsSpace).length
  match s.drop w with
  | c :: tail =>
    if c = '(' then
      let line := tail.takeWhile (fun x => x ≠ '\n')
      match lastParenClose line with
      | none => none
      | some j => if 1 ≤ j then some (w + 1 + j + 1) else none
    else none
  | [] => none

/-- `re.sub(r'\s*\(.+\)', '', s)`: delete every (non-overlapping,
leftmost-first) match. -/
def subParen : List Char → List Char
  | [] => []
  | c :: rest =>
    match tryParenLen (c :: rest) with
    | some n => subParen (rest.drop (n - 1))
    | none => c :: subParen rest
termination_by s => s.length
decreasing_by
  · simp only [List.length_cons, List.length_drop]
    omega
  · simp only [List.length_cons]
    omega

/-- strptime directive `%m`: alternation `1[0-2]|0[1-9]|[1-9]`, branches
tried in order with backtracking through the continuation. -/
def matchStpM (k : Nat → List Char → Option α) (s : List Char) : Option α :=
  let b1 : Option α :=
    match s with
    | a :: b :: rest =>
      if a = '1' && '0' ≤ b && b ≤ '2' then k (10 + digitVal b) rest else none
    | _ => none
  match b1 with
  | some r => some r
  | none =>
    let b2 : Option α :=
      match s with
      | a :: b :: rest =>
        if a = '0' && '1' ≤ b && b ≤ '9' then k (digitVal b) rest else none
      | _ => none
    match b2 with
    | some r => some r
    | none =>
      match s with
      | a :: rest => if '1' ≤ a && a ≤ '9' then k (digitVal a) rest else none
      | _ => none

/-- strptime directive `%d`: alternation `3[01]|[12]\d|0[1-9]|[1-9]`. -/
def matchStpD (k : Nat → List Char → Option α) (s : List Char) : Option α :=
  let b1 : Option α :=
    match s with
    | a :: b :: rest =>
      if a = '3' && ('0' ≤ b && b ≤ '1') then k (30 + digitVal b) rest else none
    | _ => none
  match b1 with
  | some r => some r
  | none =>
    let b2 : Option α :=
      match s with
      | a :: b :: rest =>
        if ('1' ≤ a && a ≤ '2') && b.isDigit then
          k (digitVal a * 10 + digitVal b) rest
        else none
      | _ => none
    match b2 with
    | some r => some r
    | none =>
      let b3 : Option α :=
        match s with
        | a :: b :: rest =>
          if a = '0' && '1' ≤ b && b ≤ '9' then k (digitVal b) rest else none
        | _ => none
      match b3 with
      | some r => some r
      | none =>
        match s with
        | a :: rest => if '1' ≤ a && a ≤ '9' then k (digitVal a) rest else none
        | _ => none

/-- `datetime.strptime(s, '%Y.%m.%d')`: the whole string must be consumed
(the trailing-data check is threaded through the continuation; for this
directive set that agrees with Python's match-then-check-end, because the
later alternation branches only ever consume fewer characters). -/
def strptimeYmd (s : List Char) : Option (Nat × Nat × Nat) :=
  match matchD4 s with
  | none => none
  | some (y, s) =>
  match matchChar '.' s with
  | none => none
  | some s =>
  matchStpM (fun m s =>
    match matchChar '.' s with
    | none => none
    | some s =>
      matchStpD (fun d s => if s.isEmpty then some (y, m, d) else none) s) s

def rstripDot (s : List Char) : List Char := (s.reverse.dropWhile (fun c => c = '.')).reverse

def replaceDash (s : List Char) : List Char := s.map fun c => if c = '-' then '.' else c

/-- Format 4: strip weekday/bracket text with `re.sub`, strip, drop
trailing dots, unify separators, then `strptime('%Y.%m.%d')`. -/
def wFmt4 (s : List Char) : Option PyDate :=
  let clean := replaceDash (rstripDot (pyStripList (subParen s)))
  match strptimeYmd clean with
  | none => none
  | some (y, m, d) =>
    match mkDatetime y m d 0 0 with
    | some dt => some dt.date
    | none => none

def wFmt3 (s : List Char) : Option PyDate :=
  match searchP wFmt3At s with
  | some (yy, m, d) =>
    (match mkDatetime (2000 + yy) m d 0 0 with
     | some dt => some dt.date
     | none => wFmt4 s)
  | none => wFmt4 s

/-- Format 2 applies the year inference with rollover: assume the current
year; if the parsed datetime is strictly before `now`, move to next year
(`.replace` may itself raise, e.g. Feb 29 → next year: ValueError falls
through to format 3). -/
def wFmt2 (now : PyDateTime) (s : List Char) : Option PyDate :=
  match searchP wFmt2At s with
  | none => wFmt3 s
  | some (m, d, hh, mi) =>
    match mkDatetime now.year m d hh mi with
    | none => wFmt3 s
    | some p =>
      if p.key < now.key then
        match mkDatetime (now.year + 1) m d hh mi with
        | none => wFmt3 s
        | some p2 => some p2.date
      else some p.date

def wFmt1 (now : PyDateTime) (s : List Char) : Option PyDate :=
  match searchP wFmt1At s with
  | none => wFmt2 now s
  | some (y, m, d, hh, mi) =>
    match mkDatetime y m d hh mi with
    | none => wFmt2 now s
    | some dt => some dt.date

/-- web_app._parse_ticket_date_improved.  `now` is `datetime.now()`. -/
def parse_ticket_date_improved (now : PyDateTime) (date_str : String) : Option PyDate :=
  if date_str = "" then none
  else if pyStrip date_str = "미정" || pyStrip date_str = "오픈일정 보기 >" then none
  else wFmt1 now (pyStrip date_str).toList

/-! ## DiscordNotifier (discord_notifier.py)

State is carried explicitly; `datetime.now().isoformat()` and the
`'%Y-%m-%d'` day string are parameters; each HTTP POST draws its outcome
from an explicit oracle stream of responses. -/

/-- One entry of the sent_notifications dict. -/
structure SentEntry where
  sent_at : String
  ticket_hash : String
  ticket_info : Ticket
deriving DecidableEq, Repr

structure NotificationHistory where
  daily_counts : List (String × Nat)
  total_sent : Nat
deriving DecidableEq, Repr

structure NotifierState where
  sent_notifications : List (String × SentEntry)
  ticket_hashes : List String
  notification_history : NotificationHistory
deriving DecidableEq, Repr

structure NotifierConfig where
  keywords : List String
  priority_keywords : List String
deriving DecidableEq, Repr

/-- `hashlib.md5(content).hexdigest()` modelled as an injective
placeholder of the hashed content: no claim depends on digest values,
only on equality of hashed contents (md5 collisions are not modelled). -/
def md5hex (s : String) : String := "md5:" ++ s

/-- DiscordNotifier._generate_ticket_hash: hash of
`source_title_open_date_link` (no stripping, no case folding). -/
def generate_ticket_hash (t : Ticket) : String :=
  md5hex (t.source ++ "_" ++ t.title ++ "_" ++ t.open_date ++ "_" ++ t.link)

/-- DiscordNotifier.is_new_ticket: neither the legacy id nor the hash has
been recorded. -/
def is_new_ticket (st : NotifierState) (t : Ticket) : Bool :=
  let legacy_id := t.source ++ "_" ++ t.title ++ "_" ++ t.open_date
  let h := generate_ticket_hash t
  !(st.sent_notifications.any fun kv => kv.1 = legacy_id) &&
    !(st.ticket_hashes.contains h)

/-- Python dict upsert `d[k] = v` on an association list. -/
def dictInsert (k : String) (v : SentEntry) :
    List (String × SentEntry) → List (String × SentEntry)
  | [] => [(k, v)]
  | (k', v') :: rest =>
    if k' = k then (k, v) :: rest else (k', v') :: dictInsert k v rest

/-- `daily_counts[today] = daily_counts.get(today, 0) + 1`. -/
def dictIncr (k : String) : List (String × Nat) → List (String × Nat)
  | [] => [(k, 1)]
  | (k', v) :: rest =>
    if k' = k then (k', v + 1) :: rest else (k', v) :: dictIncr k rest

/-- DiscordNotifier.mark_as_sent: record the legacy id and the hash, bump
today's count and the total (persisting the files is implicit in the
state). -/
def mark_as_sent (nowIso today : String) (st : NotifierState) (t : Ticket) :
    NotifierState :=
  let ticket_id := t.source ++ "_" ++ t.title ++ "_" ++ t.open_date
  let h := generate_ticket_hash t
  ⟨dictInsert ticket_id ⟨nowIso, h, t⟩ st.sent_notifications,
   (if st.ticket_hashes.contains h then st.ticket_hashes else st.ticket_hashes ++ [h]),
   ⟨dictIncr today st.notification_history.daily_counts,
    st.notification_history.total_sent + 1⟩⟩

/-- Python `str.lower()` (ASCII; Korean characters are unaffected by both
Python and this model). -/
def lowerStr (s : String) : String := ⟨s.toList.map Char.toLower⟩

/-- `needle` is a prefix of `hay`. -/
def startsWithL : List Char → List Char → Bool
  | [], _ => true
  | _ :: _, [] => false
  | a :: as, b :: bs => a = b && startsWithL as bs

/-- Python `needle in hay` substring test. -/
def substrIn : List Char → List Char → Bool
  | needle, [] => needle.isEmpty
  | needle, c :: rest => startsWithL needle (c :: rest) || substrIn needle rest

/-- DiscordNotifier._check_priority: some priority keyword occurs
(case-insensitively) in the title. -/
def check_priority (cfg : NotifierConfig) (t : Ticket) : Bool :=
  if cfg.priority_keywords.isEmpty then false
  else cfg.priority_keywords.any fun k =>
    substrIn (lowerStr k).toList (lowerStr t.title).toList

/-- DiscordNotifier._should_send_notification: the ticket is new, and if
keywords are configured the title contains one (case-insensitively). -/
def should_send_notification (cfg : NotifierConfig) (st : NotifierState)
    (t : Ticket) : Bool :=
  if !(is_new_ticket st t) then false
  else if !cfg.keywords.isEmpty then
    cfg.keywords.any fun k => substrIn (lowerStr k).toList (lowerStr t.title).toList
  else true

/-- Outcome of one `requests.post` + `raise_for_status`. -/
inductive HttpResp where
  /-- 2xx: raise_for_status returns normally. -/
  | ok
  /-- requests.exceptions.Timeout. -/
  | timeout
  /-- requests.exceptions.HTTPError with this status code. -/
  | http (code : Nat)
  /-- any other exception. -/
  | exn
deriving DecidableEq, Repr

/-- DiscordNotifier.send_notification.  Each POST draws the next element
of the oracle stream `resps`; the result is (return value, state,
remaining stream).  On 429 the code sleeps 5 s and calls itself
recursively, consuming further responses; on success it calls
mark_as_sent before returning True; every other outcome returns False
with the state unchanged. -/
def send_notification (cfg : NotifierConfig) (nowIso today : String)
    (st : NotifierState) (t : Ticket) :
    List HttpResp → Bool × NotifierState × List HttpResp
  | [] => (false, st, [])
  | r :: rest =>
    if !(should_send_notification cfg st t) then (false, st, r :: rest)
    else
      match r with
      | .ok => (true, mark_as_sent nowIso today st t, rest)
      | .timeout => (false, st, rest)
      | .http code =>
        if code = 429 then send_notification cfg nowIso today st t rest
        else (false, st, rest)
      | .exn => (false, st, rest)

/-- Python string comparison (code-point lexicographic) as a total ≤ on
character lists. -/
def pyStrLeL : List Char → List Char → Bool
  | [], _ => true
  | _ :: _, [] => false
  | a :: as, b :: bs =>
    if a.toNat < b.toNat then true
    else if b.toNat < a.toNat then false
    else pyStrLeL as bs

/-- `a ≤ b` on strings, Python code-point order. -/
def pyStrLe (a b : String) : Bool := pyStrLeL a.toList b.toList

theorem pyStrLeL_total : ∀ a b, pyStrLeL a b = true ∨ pyStrLeL b a = true
  | [], _ => Or.inl rfl
  | _ :: _, [] => Or.inr rfl
  | a :: as, b :: bs => by
    rcases Nat.lt_trichotomy a.toNat b.toNat with h | h | h
    · left
      simp [pyStrLeL, h]
    · rcases pyStrLeL_total as bs with ih | ih
      · left
        simp [pyStrLeL, h, ih]
      · right
        simp [pyStrLeL, h.symm, ih]
    · right
      simp [pyStrLeL, h]

theorem pyStrLeL_trans : ∀ a b c, pyStrLeL a b = true → pyStrLeL b c = true →
    pyStrLeL a c = true
  | [], _, _, _, _ => rfl
  | _ :: _, [], _, h1, _ => by simp [pyStrLeL] at h1
  | _ :: _, _ :: _, [], _, h2 => by simp [pyStrLeL] at h2
  | a :: as, b :: bs, c :: cs, h1, h2 => by
    rcases Nat.lt_trichotomy a.toNat b.toNat with hab | hab | hab <;>
      rcases Nat.lt_trichotomy b.toNat c.toNat with hbc | hbc | hbc <;>
        simp_all [pyStrLeL] <;>
          first
          | omega
          | (exact pyStrLeL_trans as bs cs h1 h2)

/-- The attempt order of send_batch_notifications: split into priority
and normal tickets (stable), sort each group by the RAW open_date string
(Python's stable `list.sort` with key `x.get('open_date','')`),
concatenate priority-first, and truncate to `max_per_batch`. -/
def batch_order (cfg : NotifierConfig) (tickets : List Ticket)
    (max_per_batch : Nat) : List Ticket :=
  let priority_tickets := tickets.filter fun t => check_priority cfg t
  let normal_tickets := tickets.filter fun t => !(check_priority cfg t)
  let ps := priority_tickets.insertionSort fun a b => pyStrLe a.open_date b.open_date
  let ns := normal_tickets.insertionSort fun a b => pyStrLe a.open_date b.open_date
  (ps ++ ns).take max_per_batch

structure BatchCounts where
  sent : Nat
  failed : Nat
  skipped : Nat
deriving DecidableEq, Repr

/-- The send loop of send_batch_notifications.  A True return counts as
sent, a False return as skipped; the `except` branch that increments
failed_count is unreachable because send_notification handles every
exception internally (`failed` stays at its initial value, proved
below). -/
def send_batch_go (cfg : NotifierConfig) (nowIso today : String) :
    List Ticket → NotifierState → List HttpResp → BatchCounts →
    BatchCounts × NotifierState × List HttpResp
  | [], st, resps, acc => (acc, st, resps)
  | t :: ts, st, resps, acc =>
    match send_notification cfg nowIso today st t resps with
    | (true, st', resps') =>
      send_batch_go cfg nowIso today ts st' resps' ⟨acc.sent + 1, acc.failed, acc.skipped⟩
    | (false, st', resps') =>
      send_batch_go cfg nowIso today ts st' resps' ⟨acc.sent, acc.failed, acc.skipped + 1⟩

/-- DiscordNotifier.send_batch_notifications (pacing delays are no-ops in
the model). -/
def send_batch_notifications (cfg : NotifierConfig) (nowIso today : String)
    (st : NotifierState) (tickets : List Ticket) (max_per_batch : Nat)
    (resps : List HttpResp) : BatchCounts × NotifierState × List HttpResp :=
  if tickets.isEmpty then (⟨0, 0, 0⟩, st, resps)
  else send_batch_go cfg nowIso today (batch_order cfg tickets max_per_batch) st resps ⟨0, 0, 0⟩

/-! ## Concrete fixtures used by witnesses and counterexamples -/

def cfg0 : NotifierConfig := ⟨[], []⟩

def st0 : NotifierState := ⟨[], [], ⟨[], 0⟩⟩

def t0 : Ticket := ⟨"IU Concert", "2025.03.01 18:00", "http://x", "interpark"⟩

def nowJune : PyDateTime := ⟨2025, 6, 1, 0, 0, 0, 0⟩

/-- C4 counterexample: with transport outcomes 429, 429, 200 the send
makes THREE transport attempts (the whole oracle stream is consumed) and
returns Sent — the claim's "at most one retry, 429 on the retry is
Failed" is false of the code, which retries by unbounded recursion. -/
theorem retry_429_counterexample :
    (send_notification cfg0 "now" "today" st0 t0
        [HttpResp.http 429, HttpResp.http 429, HttpResp.ok]).1 = true ∧
    (send_notification cfg0 "now" "today" st0 t0
        [HttpResp.http 429, HttpResp.http 429, HttpResp.ok]).2.2 = [] :=
  ⟨rfl, rfl⟩

/-- C4 amended: on HTTP 429, send_notification sleeps and recursively
retries WITHOUT bound: any run of leading 429s is consumed and the first
non-429 outcome decides the result, so the number of transport attempts
is 1 + the number of leading 429s. -/
theorem retry_429_unbounded (cfg : NotifierConfig) (nowIso today : String)
    (st : NotifierState) (t : Ticket) (n : Nat) (resps : List HttpResp)
    (h : should_send_notification cfg st t = true) :
    send_notification cfg nowIso today st t
        (List.replicate n (HttpResp.http 429) ++ resps) =
      send_notification cfg nowIso today st t resps := by
  induction n with
  | zero => rfl
  | succ n ih =>
    rw [List.replicate_succ, List.cons_append]
    simp [send_notification, h, ih]

/-- Witness for the amended C4 at concrete inputs: five 429s followed by
a 200 behave like the 200 alone (six attempts, result Sent). -/
theorem retry_429_unbounded_witness :
    should_send_notification cfg0 st0 t0 = true ∧
    send_notification cfg0 "now" "today" st0 t0
        (List.replicate 5 (HttpResp.http 429) ++ [HttpResp.ok]) =
      send_notification cfg0 "now" "today" st0 t0 [HttpResp.ok] :=
  ⟨by decide, retry_429_unbounded cfg0 "now" "today" st0 t0 5 [HttpResp.ok] (by decide)⟩

/-- C5 counterexample: a non-429 HTTP error (500) on the only record
leaves the ledger state unchanged, but the batch counts report it under
`skipped`, not under `failed` (failed stays 0). -/
theorem failed_counts_counterexample :
    (send_batch_notifications cfg0 "now" "today" st0 [t0] 10 [HttpResp.http 500]).1
        = ⟨0, 0, 1⟩ ∧
    (send_batch_notifications cfg0 "now" "today" st0 [t0] 10 [HttpResp.http 500]).2.1
        = st0 :=
  ⟨rfl, rfl⟩

/-- A transport failure: timeout, network/other exception, or an HTTP
error other than 429. -/
def isTransportFailure : HttpResp → Bool
  | .timeout => true
  | .exn => true
  | .http code => code ≠ 429
  | .ok => false

theorem send_batch_go_failed (cfg : NotifierConfig) (nowIso today : String)
    (ts : List Ticket) : ∀ st resps acc,
    (send_batch_go cfg nowIso today ts st resps acc).1.failed = acc.failed := by
  induction ts with
  | nil => intro st resps acc; rfl
  | cons t ts ih =>
    intro st resps acc
    simp only [send_batch_go]
    rcases hsn : send_notification cfg nowIso today st t resps with ⟨b, st', resps'⟩
    cases b
    · exact ih st' resps' _
    · exact ih st' resps' _

/-- C5 amended: a transport failure returns False with the state (and so
the ledger) unchanged — the record stays eligible for the next run — but
in send_batch_notifications the attempt is counted under `skipped`;
`failed` is always 0 (the except branch that would increment it is
unreachable because send_notification handles all its exceptions). -/
theorem transport_failure_not_marked (cfg : NotifierConfig) (nowIso today : String)
    (st : NotifierState) (t : Ticket) (r : HttpResp) (rest : List HttpResp)
    (hs : should_send_notification cfg st t = true)
    (hr : isTransportFailure r = true) :
    send_notification cfg nowIso today st t (r :: rest) = (false, st, rest) ∧
    ∀ tickets maxN resps,
      (send_batch_notifications cfg nowIso today st tickets maxN resps).1.failed = 0 := by
  constructor
  · cases r with
    | ok => simp [isTransportFailure] at hr
    | timeout => simp [send_notification, hs]
    | http code =>
      have hc : ¬(code = 429) := by simpa [isTransportFailure] using hr
      simp [send_notification, hs, hc]
    | exn => simp [send_notification, hs]
  · intro tickets maxN resps
    unfold send_batch_notifications
    by_cases ht : tickets.isEmpty
    · simp [ht]
    · simp [ht, send_batch_go_failed]

/-- Witness for the amended C5: an HTTP 500 returns False, consumes one
response, changes nothing. -/
theorem transport_failure_not_marked_witness :
    send_notification cfg0 "now" "today" st0 t0 [HttpResp.http 500] = (false, st0, []) :=
  (transport_failure_not_marked cfg0 "now" "today" st0 t0 (HttpResp.http 500) []
    (by decide) (by decide)).1

def tA : Ticket := ⟨"A", "9.01 10:00", "", "melon"⟩

def tB : Ticket := ⟨"B", "10.02 10:00", "", "melon"⟩

/-- C6 counterexample: send_batch sorts each group by the RAW open_date
string, not by the parsed date.  With two non-priority records whose
string order and parsed-date order disagree, the attempt order is
[tB, tA] although tA's parsed open date is strictly earlier. -/
theorem batch_parsed_order_counterexample :
    batch_order cfg0 [tA, tB] 10 = [tB, tA] ∧
    check_priority cfg0 tA = false ∧ check_priority cfg0 tB = false ∧
    (parse_date nowJune tA.open_date).key < (parse_date nowJune tB.open_date).key := by
  refine ⟨by decide, rfl, rfl, by decide⟩

/-- C6 amended: in the attempt order of send_batch_notifications every
priority record comes before every non-priority record, and inside each
of the two groups the records are ordered (stably) by the raw open_date
string, not by the parsed date. -/
theorem priority_ordering (cfg : NotifierConfig) (tickets : List Ticket) (maxN : Nat) :
    List.Pairwise (fun a b =>
      (check_priority cfg b = true → check_priority cfg a = true) ∧
      (check_priority cfg a = check_priority cfg b →
        pyStrLe a.open_date b.open_date = true))
      (batch_order cfg tickets maxN) := by
  letI : IsTotal Ticket (fun a b : Ticket => pyStrLe a.open_date b.open_date = true) :=
    ⟨fun a b => pyStrLeL_total a.open_date.toList b.open_date.toList⟩
  letI : IsTrans Ticket (fun a b : Ticket => pyStrLe a.open_date b.open_date = true) :=
    ⟨fun a b c hab hbc => pyStrLeL_trans _ _ _ hab hbc⟩
  simp only [batch_order]
  refine List.Pairwise.sublist (List.take_sublist _ _) ?_
  refine (List.pairwise_append).mpr ⟨?_, ?_, ?_⟩
  · refine List.Pairwise.imp_of_mem ?_ (List.sorted_insertionSort _ _)
    intro a b ha hb hab
    have hpa : check_priority cfg a = true :=
      (List.mem_filter.mp ((List.perm_insertionSort _ _).mem_iff.mp ha)).2
    exact ⟨fun _ => hpa, fun _ => hab⟩
  · refine List.Pairwise.imp_of_mem ?_ (List.sorted_insertionSort _ _)
    intro a b ha hb hab
    have hpb : check_priority cfg b = false := by
      have := (List.mem_filter.mp ((List.perm_insertionSort _ _).mem_iff.mp hb)).2
      simpa using this
    exact ⟨fun hb' => absurd (hpb ▸ hb') (by simp), fun _ => hab⟩
  · intro a ha b hb
    have hpa : check_priority cfg a = true :=
      (List.mem_filter.mp ((List.perm_insertionSort _ _).mem_iff.mp ha)).2
    have hpb : check_priority cfg b = false := by
      have := (List.mem_filter.mp ((List.perm_insertionSort _ _).mem_iff.mp hb)).2
      simpa using this
    refine ⟨fun _ => hpa, fun heq => ?_⟩
    rw [hpa, hpb] at heq
    exact absurd heq (by simp)

/-- Witness for the amended C6 at the concrete two-record input. -/
theorem priority_ordering_witness :
    List.Pairwise (fun a b =>
      (check_priority cfg0 b = true → check_priority cfg0 a = true) ∧
      (check_priority cfg0 a = check_priority cfg0 b →
        pyStrLe a.open_date b.open_date = true))
      (batch_order cfg0 [tA, tB] 10) :=
  priority_ordering cfg0 [tA, tB] 10

/-- A calendar-valid datetime as produced by the `datetime` constructor
through `mkDatetime` (seconds and microseconds are always 0 there). -/
def validDT (d : PyDateTime) : Prop :=
  1 ≤ d.year ∧ d.year ≤ 9999 ∧ 1 ≤ d.month ∧ d.month ≤ 12 ∧ 1 ≤ d.day ∧
  d.day ≤ daysInMonth d.year d.month ∧ d.hour ≤ 23 ∧ d.minute ≤ 59 ∧
  d.second = 0 ∧ d.usec = 0

theorem daysInMonth_le_31 (y m : Nat) : daysInMonth y m ≤ 31 := by
  unfold daysInMonth
  split_ifs <;> omega

theorem parse_branch_valid (y m d hh mi : Nat) :
    (mkDatetime y m d hh mi).getD dtMax = dtMax ∨
    validDT ((mkDatetime y m d hh mi).getD dtMax) := by
  unfold mkDatetime
  split
  · right
    rename_i h
    simpa [validDT] using h
  · left
    rfl

theorem validDT_key_lt {d : PyDateTime} (h : validDT d) : d.key < dtMax.key := by
  obtain ⟨h1, h2, h3, h4, h5, h6, h7, h8, h9, h10⟩ := h
  have hd31 : d.day ≤ 31 := h6.trans (daysInMonth_le_31 _ _)
  unfold PyDateTime.key dtMax
  simp only
  omega

theorem parse_date_cases (now : PyDateTime) (s : String) :
    parse_date now s = dtMax ∨ validDT (parse_date now s) := by
  unfold parse_date
  split
  · apply parse_branch_valid
  · split
    · apply parse_branch_valid
    · split
      · apply parse_branch_valid
      · split
        · apply parse_branch_valid
        · split
          · apply parse_branch_valid
          · exact Or.inl rfl

theorem run_parse_date_cases (now : PyDateTime) (s : String) :
    run_parse_date now s = dtMax ∨ validDT (run_parse_date now s) := by
  unfold run_parse_date
  split
  · apply parse_branch_valid
  · split
    · apply parse_branch_valid
    · split
      · apply parse_branch_valid
      · split
        · apply parse_branch_valid
        · exact Or.inl rfl

/-- C10: parse_date totality.  Both parse_date variants are total Lean
functions (so they never raise), and on every input string — empty,
malformed, or matching a pattern that denotes an invalid calendar date
such as month 13 — the result is either the sentinel `datetime.max` or a
calendar-valid datetime; every internal failure yields the sentinel. -/
theorem parse_date_total (now : PyDateTime) (s : String) :
    (parse_date now s = dtMax ∨ validDT (parse_date now s)) ∧
    (run_parse_date now s = dtMax ∨ validDT (run_parse_date now s)) :=
  ⟨parse_date_cases now s, run_parse_date_cases now s⟩

/-- A sorted list splits into its non-`p` part followed by its `p` part,
when `p` is upward closed along the order. -/
theorem sorted_split {α : Type} (p : α → Bool) (le : α → α → Prop)
    (h : ∀ x y, p x = true → le x y → p y = true) :
    ∀ l : List α, List.Pairwise le l →
      l = l.filter (fun x => !(p x)) ++ l.filter p := by
  intro l
  induction l with
  | nil => exact fun _ => rfl
  | cons x xs ih =>
    intro hl
    rcases List.pairwise_cons.mp hl with ⟨hx, hxs⟩
    cases hpx : p x with
    | false =>
      have hrec := ih hxs
      simp only [List.filter_cons, hpx, Bool.not_false, if_true, Bool.false_eq_true,
        if_false, List.cons_append]
      exact congrArg (x :: ·) hrec
    | true =>
      have hall : ∀ y ∈ xs, p y = true := fun y hy => h x y hpx (hx y hy)
      have hfilter1 : xs.filter (fun x => !(p x)) = [] := by
        rw [List.filter_eq_nil_iff]
        intro a ha
        simp [hall a ha]
      have hfilter2 : xs.filter p = xs := by
        rw [List.filter_eq_self]
        exact hall
      simp [List.filter_cons, hpx, hfilter1, hfilter2]

/-- C7: date-sort placement.  Sorting by `parse_date` (a) is a
permutation of the input (total, never erroring), (b) is ordered
ascending by the parsed keys, and (c) puts every record whose open_date
fails to parse (sentinel `datetime.max`) after every record that
parses. -/
theorem date_sort_placement (now : PyDateTime) (tickets : List Ticket) :
    List.Perm (sort_by_date now tickets) tickets ∧
    List.Pairwise (fun a b =>
      (parse_date now a.open_date).key ≤ (parse_date now b.open_date).key)
      (sort_by_date now tickets) ∧
    sort_by_date now tickets =
      (sort_by_date now tickets).filter
        (fun t => !(decide (parse_date now t.open_date = dtMax))) ++
      (sort_by_date now tickets).filter
        (fun t => decide (parse_date now t.open_date = dtMax)) := by
  letI : IsTotal Ticket (fun a b : Ticket =>
      (parse_date now a.open_date).key ≤ (parse_date now b.open_date).key) :=
    ⟨fun a b => Nat.le_total _ _⟩
  letI : IsTrans Ticket (fun a b : Ticket =>
      (parse_date now a.open_date).key ≤ (parse_date now b.open_date).key) :=
    ⟨fun _ _ _ hab hbc => Nat.le_trans hab hbc⟩
  have hsorted : List.Pairwise (fun a b =>
      (parse_date now a.open_date).key ≤ (parse_date now b.open_date).key)
      (sort_by_date now tickets) := List.sorted_insertionSort _ _
  refine ⟨List.perm_insertionSort _ _, hsorted, ?_⟩
  refine sorted_split _ _ ?_ _ hsorted
  intro x y hx hle
  have hxe : parse_date now x.open_date = dtMax := of_decide_eq_true hx
  rcases parse_date_cases now y.open_date with hy | hy
  · simp [hy]
  · exfalso
    have hlt := validDT_key_lt hy
    rw [hxe] at hle
    omega

theorem mkDatetime_eq_some {y m d hh mi : Nat} {p : PyDateTime}
    (h : mkDatetime y m d hh mi = some p) : p = ⟨y, m, d, hh, mi, 0, 0⟩ := by
  unfold mkDatetime at h
  split at h
  · exact (Option.some.inj h).symm
  · cases h

/-- C3 counterexample: the Date Normalizer (filters.parse_date) applies
NO year rollover.  The claim's own example string "03.01(토) 18:00" does
not even match any of its patterns (sentinel, not 2026-03-01), and the
matching year-omitting string "03.01 18:00" parsed at now = 2025-06-01
stays at 2025-03-01 18:00 although that is strictly in the past. -/
theorem year_rollover_counterexample :
    parse_date nowJune "03.01(토) 18:00" = dtMax ∧
    parse_date nowJune "03.01 18:00" = ⟨2025, 3, 1, 18, 0, 0, 0⟩ ∧
    (⟨2025, 3, 1, 18, 0, 0, 0⟩ : PyDateTime).key < nowJune.key := by
  exact ⟨by decide, by decide, by decide⟩

/-- C3 amended: the year-inference-with-rollover behaviour belongs to
web_app._parse_ticket_date_improved only.  When its year-omitting format
`MM.DD(요일) HH:MM` matches (and format 1 does not), the current year is
assumed; if the result is strictly before now it is rolled forward to
the next year, else it is kept. -/
theorem year_rollover_amended (now : PyDateTime) (s : String) (m d hh mi : Nat)
    (p : PyDateTime)
    (hne : s ≠ "")
    (hms1 : pyStrip s ≠ "미정")
    (hms2 : pyStrip s ≠ "오픈일정 보기 >")
    (hf1 : searchP wFmt1At (pyStrip s).toList = none)
    (hf2 : searchP wFmt2At (pyStrip s).toList = some (m, d, hh, mi))
    (hmk : mkDatetime now.year m d hh mi = some p) :
    (∀ p2, p.key < now.key → mkDatetime (now.year + 1) m d hh mi = some p2 →
      parse_ticket_date_improved now s = some ⟨now.year + 1, m, d⟩) ∧
    (¬(p.key < now.key) →
      parse_ticket_date_improved now s = some ⟨now.year, m, d⟩) := by
  have hbase : parse_ticket_date_improved now s = wFmt2 now (pyStrip s).toList := by
    unfold parse_ticket_date_improved
    rw [if_neg hne, if_neg (by simp [hms1, hms2])]
    unfold wFmt1
    rw [hf1]
  constructor
  · intro p2 hpast hmk2
    rw [hbase]
    unfold wFmt2
    rw [hf2]
    dsimp only
    rw [hmk]
    dsimp only
    rw [if_pos hpast, hmk2, mkDatetime_eq_some hmk2]
    rfl
  · intro hfut
    rw [hbase]
    unfold wFmt2
    rw [hf2]
    dsimp only
    rw [hmk]
    dsimp only
    rw [if_neg hfut, mkDatetime_eq_some hmk]
    rfl

/-- Witness for the amended C3 — the spec's literal scenario 2:
"03.01(토) 18:00" at now = 2025-06-01 rolls forward to 2026-03-01. -/
theorem year_rollover_amended_witness :
    parse_ticket_date_improved nowJune "03.01(토) 18:00" = some ⟨2026, 3, 1⟩ :=
  (year_rollover_amended nowJune "03.01(토) 18:00" 3 1 18 0 ⟨2025, 3, 1, 18, 0, 0, 0⟩
      (by decide) (by decide) (by decide) (by decide) (by decide) (by decide)).1
    ⟨2026, 3, 1, 18, 0, 0, 0⟩ (by decide) (by decide)

end TicketAlarm
